import Mathlib

set_option maxRecDepth 8192

/-!
Shallow embedding of src/src/DisableDemolitionAnimationDllDirector.cpp,
the single source file of the sc4-disable-demolition-animation plugin.

The program installs a 5-byte near-call hook over a known call site of the
host binary: it resolves the detected game version to a target address
through a static table, changes the memory protection of the 5 patched
bytes, and writes the opcode byte 0xE8 followed by the 32-bit little-endian
relative displacement.  The injected replacement function always returns
true; in debug builds it additionally reads a diagnostic name off the
occupant and logs it.

Machine integers are modelled as Nat with explicit reductions mod 2^8 and
2^32 where the 32-bit store wraps; memory is a byte map Nat -> Nat paired
with a per-address protection attribute; the Win32 VirtualProtect call is
driven by an explicit environment oracle, and the wil exception raised by
THROW_IF_WIN32_BOOL_FALSE is the Except.error outcome.
-/

namespace SC4DDA

/-- Log levels of the plugin logger as used by the source. -/
inductive PluginLogLevel
  | debug
  | info
  | error
  deriving DecidableEq, Repr

/-- One line written to the plugin log file. -/
structure LogEntry where
  level : PluginLogLevel
  message : String
  deriving DecidableEq, Repr

/-- Model of cIGZVariant: a tagged value; the code only inspects the type
tag and, when the tag is RZCharArray, the character payload. -/
structure IGZVariant where
  type : Nat
  refRZChar : String

/-- Numeric tag of cIGZVariant::Type::RZCharArray.  The exact numeral lives
in an external header outside this repository; only equality with it is
ever observed, so any fixed value yields the same behaviour. -/
def kRZCharArrayType : Nat := 0x8010

/-- Model of cISCProperty: GetPropertyValue returns the variant.  The
source dereferences the returned pointer without a null check, so the
variant is modelled as always present. -/
structure ISCProperty where
  propertyValue : IGZVariant

/-- Model of cISCPropertyHolder: GetProperty maps a property id to the
property, or to null (none). -/
structure ISCPropertyHolder where
  getProperty : Nat → Option ISCProperty

/-- Model of a valid cISC4Occupant object sitting behind a dereferenceable
pointer. -/
structure ISC4Occupant where
  asPropertyHolder : ISCPropertyHolder

/-- Property id of the exemplar name (source line 48). -/
def kExemplarName : Nat := 0x00000020

/-- Embedding of GetOccupantExemplarName (source lines 42-66): look up the
exemplar-name property; when it exists and its variant is an RZCharArray,
return the character payload, otherwise the empty string. -/
def GetOccupantExemplarName (pOccupant : ISC4Occupant) : String :=
  let propertyHolder := pOccupant.asPropertyHolder
  match propertyHolder.getProperty kExemplarName with
  | some exemplarName =>
      let propertyValue := exemplarName.propertyValue
      if propertyValue.type = kRZCharArrayType then
        propertyValue.refRZChar
      else
        ""
  | none => ""

/-- Embedding of IsOccupantTooSmallForDemolitionAnimation compiled with
_DEBUG (source lines 68-85): read the diagnostic name, log one debug line
when it is non-empty, and return true.  The occupant argument is the
object behind the pointer the code dereferences; the float argument is
never read and is kept as a raw pointer value.  The pair carries the
boolean result and the log lines written. -/
def IsOccupantTooSmallForDemolitionAnimationDebug
    (pOccupant : ISC4Occupant) (unknown : Nat) : Bool × List LogEntry :=
  let name := GetOccupantExemplarName pOccupant
  if name ≠ "" then
    (true, [⟨PluginLogLevel.debug, "Demolished occupant " ++ name ++ "."⟩])
  else
    (true, [])

/-- Embedding of IsOccupantTooSmallForDemolitionAnimation compiled without
_DEBUG: the diagnostic block is compiled out, neither pointer is read, and
the function is the constant true.  The occupant pointer is kept as an
Option so the null pointer (none) is in the domain. -/
def IsOccupantTooSmallForDemolitionAnimationRelease
    (pOccupant : Option ISC4Occupant) (unknown : Nat) : Bool × List LogEntry :=
  (true, [])

/-- Byte-addressed memory together with a per-address protection
attribute. -/
structure MemState where
  bytes : Nat → Nat
  prot : Nat → Nat

/-- Win32 PAGE_EXECUTE_READWRITE protection constant. -/
def PAGE_EXECUTE_READWRITE : Nat := 0x40

/-- Observable actions of the patcher, recorded in program order: a
VirtualProtect call over a range, and a machine store of a given width. -/
inductive PatchEvent
  | protectCall (addr size newProtect : Nat)
  | store (addr size value : Nat)
  deriving DecidableEq, Repr

/-- Whether an event is a byte-write (machine store). -/
def PatchEvent.isStore : PatchEvent → Bool
  | .store _ _ _ => true
  | .protectCall _ _ _ => false

/-- Win32 environment oracle: whether the VirtualProtect call succeeds,
and the OS error code carried by the wil exception otherwise. -/
structure Win32Env where
  virtualProtectSucceeds : Bool
  lastError : Nat

/-- Store one byte (the uint8_t store on source line 98). -/
def writeByte (m : MemState) (a v : Nat) : MemState :=
  { m with bytes := fun x => if x = a then v % 256 else m.bytes x }

/-- Little-endian store of a 32-bit value, the uintptr_t store on source
line 99 (uintptr_t is 4 bytes in the 32-bit host process). -/
def writeU32LE (m : MemState) (a v : Nat) : MemState :=
  writeByte (writeByte (writeByte (writeByte m a (v % 256))
    (a + 1) (v / 256 % 256)) (a + 2) (v / 65536 % 256))
    (a + 3) (v / 16777216 % 256)

/-- Set the protection attribute of a range of addresses, the effect of a
successful VirtualProtect over that range. -/
def setProtect (m : MemState) (a size v : Nat) : MemState :=
  { m with prot := fun x => if a ≤ x ∧ x < a + size then v else m.prot x }

/-- The 32-bit unsigned displacement pfnFunc - targetAddress - 5 computed
on source line 99 in uintptr_t arithmetic. -/
def callDisplacement (targetAddress replacementAddress : Nat) : Nat :=
  (((replacementAddress : Int) - (targetAddress : Int) - 5) % (2 ^ 32 : Int)).toNat

/-- Embedding of InstallCallHook (source lines 87-100).  When
VirtualProtect succeeds, the protection of the 5 target bytes becomes
PAGE_EXECUTE_READWRITE, then the opcode byte 0xE8 and the 4-byte
little-endian displacement are stored.  When it fails,
THROW_IF_WIN32_BOOL_FALSE raises a wil::ResultException carrying the OS
error, modelled as the Except.error outcome, and nothing is stored.  The
event list records what the call performed, in program order. -/
def InstallCallHook (env : Win32Env) (targetAddress pfnFunc : Nat)
    (m : MemState) : Except Nat MemState × List PatchEvent :=
  if env.virtualProtectSucceeds then
    let m1 := setProtect m targetAddress 5 PAGE_EXECUTE_READWRITE
    let d := callDisplacement targetAddress pfnFunc
    let m2 := writeByte m1 targetAddress 0xE8
    let m3 := writeU32LE m2 (targetAddress + 1) d
    (Except.ok m3,
      [PatchEvent.protectCall targetAddress 5 PAGE_EXECUTE_READWRITE,
       PatchEvent.store targetAddress 1 0xE8,
       PatchEvent.store (targetAddress + 1) 4 d])
  else
    (Except.error env.lastError,
      [PatchEvent.protectCall targetAddress 5 PAGE_EXECUTE_READWRITE])

/-- Terminal states of the hook-installation sequence. -/
inductive OrchestratorState
  | Patched
  | Unsupported
  | Failed
  deriving DecidableEq, Repr

/-- The version-to-address table (the switch on source lines 117-122);
0 is the NotFound sentinel the code tests on line 124. -/
def resolveHookTargetAddress (gameVersion : Nat) : Nat :=
  if gameVersion = 641 then 0x4673bf else 0

/-- The error line written for an unsupported game version
(source lines 142-145). -/
def unsupportedVersionMessage (gameVersion : Nat) : String :=
  "Unsupported game version: " ++ toString gameVersion

/-- The error line written when the patch installation raised
(source lines 134-137); the OS error is rendered into the text. -/
def failedInstallMessage (osError : Nat) : String :=
  "Failed to install the demolition animations patch. OS error "
    ++ toString osError

/-- The info line written on success (source line 130). -/
def patchedMessage : String := "Disabled the occupant demolition animations."

/-- Outcome of InstallDemolitionAnimationHook: the terminal state reached,
the log lines written, the final memory, and the patch events performed. -/
structure HookInstallResult where
  state : OrchestratorState
  log : List LogEntry
  mem : MemState
  events : List PatchEvent

/-- Embedding of InstallDemolitionAnimationHook (source lines 102-147):
resolve the version; when found, install the hook inside try/catch,
logging success or the caught installation error; otherwise log the
unsupported version and do nothing else. -/
def InstallDemolitionAnimationHook (env : Win32Env) (gameVersion : Nat)
    (replacementAddress : Nat) (m : MemState) : HookInstallResult :=
  let hookTargetAddress := resolveHookTargetAddress gameVersion
  if hookTargetAddress ≠ 0 then
    match InstallCallHook env hookTargetAddress replacementAddress m with
    | (Except.ok m2, evs) =>
        ⟨OrchestratorState.Patched, [⟨PluginLogLevel.info, patchedMessage⟩],
          m2, evs⟩
    | (Except.error e, evs) =>
        ⟨OrchestratorState.Failed,
          [⟨PluginLogLevel.error, failedInstallMessage e⟩], m, evs⟩
  else
    ⟨OrchestratorState.Unsupported,
      [⟨PluginLogLevel.error, unsupportedVersionMessage gameVersion⟩], m, []⟩

/-- Embedding of DisableDemolitionAnimationDllDirector::OnStart (source
lines 177-182): run the hook installation, then return true
unconditionally. -/
def OnStart (env : Win32Env) (gameVersion replacementAddress : Nat)
    (m : MemState) : Bool × HookInstallResult :=
  (true, InstallDemolitionAnimationHook env gameVersion replacementAddress m)

/-- All-zero memory, used to instantiate witnesses. -/
def zeroMem : MemState := ⟨fun _ => 0, fun _ => 0⟩

/-- An occupant whose property store holds no property at all, so the
exemplar-name lookup fails. -/
def occNoProperty : ISC4Occupant := ⟨⟨fun _ => none⟩⟩

/-- C5: resolution is a deterministic pure lookup against the static
table: version 641 maps to the configured address 0x4673bf, and every
other version maps to the NotFound sentinel 0.  The lookup is a pure Lean
function, so it performs no side effects. -/
theorem resolveHookTargetAddress_table_lookup :
    resolveHookTargetAddress 641 = 0x4673bf ∧
    ∀ v, v ≠ 641 → resolveHookTargetAddress v = 0 := by
  refine ⟨rfl, fun v hv => ?_⟩
  simp [resolveHookTargetAddress, hv]

/-- Witness for C5 at the concrete versions 641 and 640. -/
theorem resolveHookTargetAddress_table_lookup_witness :
    resolveHookTargetAddress 641 = 0x4673bf ∧
    resolveHookTargetAddress 640 = 0 :=
  ⟨resolveHookTargetAddress_table_lookup.1,
   resolveHookTargetAddress_table_lookup.2 640 (by decide)⟩

/-- C9: OnStart returns true for every environment, game version,
replacement address and memory, hence in every outcome, and each of the
three outcomes Patched, Failed and Unsupported does occur for some input
with the same true return value. -/
theorem onStart_returns_true (env : Win32Env) (gameVersion : Nat)
    (replacementAddress : Nat) (m : MemState) :
    (OnStart env gameVersion replacementAddress m).1 = true ∧
    (OnStart ⟨true, 0⟩ 641 0x400000 zeroMem).2.state
      = OrchestratorState.Patched ∧
    (OnStart ⟨false, 5⟩ 641 0x400000 zeroMem).2.state
      = OrchestratorState.Failed ∧
    (OnStart ⟨true, 0⟩ 640 0x400000 zeroMem).2.state
      = OrchestratorState.Unsupported :=
  ⟨rfl, rfl, rfl, rfl⟩

/-- C3: the replacement function returns true for every pair of
arguments: in the release build for every occupant pointer (the null
pointer none included) and float pointer, and in the debug build for
every occupant object behind the pointer the diagnostic path
dereferences, whatever its property store holds. -/
theorem isOccupantTooSmall_always_true (pOccupant : Option ISC4Occupant)
    (occ : ISC4Occupant) (unknown unknownD : Nat) :
    (IsOccupantTooSmallForDemolitionAnimationRelease pOccupant unknown).1
      = true ∧
    (IsOccupantTooSmallForDemolitionAnimationDebug occ unknownD).1
      = true := by
  refine ⟨rfl, ?_⟩
  by_cases h : GetOccupantExemplarName occ = "" <;>
    simp [IsOccupantTooSmallForDemolitionAnimationDebug, h]

/-- C10: in the release build the replacement function is constant: any
two argument pairs give identical results, the result is true, no log
line is written, and the occupant pointer is never dereferenced (the
function is total on the null pointer none). -/
theorem release_replacement_independent_of_arguments
    (po1 po2 : Option ISC4Occupant) (u1 u2 : Nat) :
    IsOccupantTooSmallForDemolitionAnimationRelease po1 u1
      = IsOccupantTooSmallForDemolitionAnimationRelease po2 u2 ∧
    (IsOccupantTooSmallForDemolitionAnimationRelease po1 u1).1 = true ∧
    (IsOccupantTooSmallForDemolitionAnimationRelease po1 u1).2 = [] ∧
    (IsOccupantTooSmallForDemolitionAnimationRelease none u1).1 = true :=
  ⟨rfl, rfl, rfl, rfl⟩

/-- C4: every diagnostic-read failure inside the debug replacement
function is guarded and swallowed: the function is total (so nothing
unwinds into the host), it still returns true, every line it writes is at
debug level (never an error), and when the exemplar-name property is
absent or its variant is not an RZCharArray the read yields the empty
string and nothing at all is logged. -/
theorem diagnostic_read_failure_swallowed (occ : ISC4Occupant)
    (unknown : Nat) :
    (IsOccupantTooSmallForDemolitionAnimationDebug occ unknown).1 = true ∧
    (∀ e ∈ (IsOccupantTooSmallForDemolitionAnimationDebug occ unknown).2,
        e.level = PluginLogLevel.debug) ∧
    (occ.asPropertyHolder.getProperty kExemplarName = none →
        GetOccupantExemplarName occ = "" ∧
        (IsOccupantTooSmallForDemolitionAnimationDebug occ unknown).2
          = []) ∧
    (∀ p, occ.asPropertyHolder.getProperty kExemplarName = some p →
        p.propertyValue.type ≠ kRZCharArrayType →
        GetOccupantExemplarName occ = "" ∧
        (IsOccupantTooSmallForDemolitionAnimationDebug occ unknown).2
          = []) := by
  refine ⟨?_, ?_, ?_, ?_⟩
  · by_cases h : GetOccupantExemplarName occ = "" <;>
      simp [IsOccupantTooSmallForDemolitionAnimationDebug, h]
  · by_cases h : GetOccupantExemplarName occ = ""
    · simp [IsOccupantTooSmallForDemolitionAnimationDebug, h]
    · intro e he
      simp [IsOccupantTooSmallForDemolitionAnimationDebug, h] at he
      subst he
      rfl
  · intro hnone
    have hname : GetOccupantExemplarName occ = "" := by
      unfold GetOccupantExemplarName
      simp [hnone]
    refine ⟨hname, ?_⟩
    unfold IsOccupantTooSmallForDemolitionAnimationDebug
    simp [hname]
  · intro p hp htype
    have hname : GetOccupantExemplarName occ = "" := by
      unfold GetOccupantExemplarName
      simp [hp, htype]
    refine ⟨hname, ?_⟩
    unfold IsOccupantTooSmallForDemolitionAnimationDebug
    simp [hname]

/-- Witness for C4: for the occupant with no properties at all, the debug
replacement function returns true and logs nothing. -/
theorem diagnostic_read_failure_swallowed_witness :
    (IsOccupantTooSmallForDemolitionAnimationDebug occNoProperty 0).1
      = true ∧
    GetOccupantExemplarName occNoProperty = "" ∧
    (IsOccupantTooSmallForDemolitionAnimationDebug occNoProperty 0).2
      = [] :=
  ⟨(diagnostic_read_failure_swallowed occNoProperty 0).1,
   ((diagnostic_read_failure_swallowed occNoProperty 0).2.2.1 rfl).1,
   ((diagnostic_read_failure_swallowed occNoProperty 0).2.2.1 rfl).2⟩

/-- Closed form of the bytes written by a successful InstallCallHook:
0xE8 at the target, the four little-endian displacement bytes right after,
everything else untouched.  Shared by the C1 and C8 proofs. -/
theorem installCallHook_bytes_closed_form (env : Win32Env) (t r : Nat)
    (m : MemState) (h : env.virtualProtectSucceeds = true) :
    ∃ m2, (InstallCallHook env t r m).1 = Except.ok m2 ∧
      ∀ x, m2.bytes x =
        if x = t + 4 then callDisplacement t r / 16777216 % 256
        else if x = t + 3 then callDisplacement t r / 65536 % 256
        else if x = t + 2 then callDisplacement t r / 256 % 256
        else if x = t + 1 then callDisplacement t r % 256
        else if x = t then 0xE8
        else m.bytes x := by
  refine ⟨writeU32LE (writeByte (setProtect m t 5 PAGE_EXECUTE_READWRITE)
      t 0xE8) (t + 1) (callDisplacement t r),
    by simp [InstallCallHook, h], fun x => ?_⟩
  simp only [InstallCallHook, h, if_true, writeU32LE, writeByte, setProtect]
  have h1 : t + 1 + 3 = t + 4 := by omega
  have h2 : t + 1 + 2 = t + 3 := by omega
  have h3 : t + 1 + 1 = t + 2 := by omega
  rw [h1, h2, h3]
  split_ifs <;> omega

/-- C1: when the memory-protection change succeeds, InstallCallHook
writes exactly the 5-byte near-call encoding: the opcode byte 0xE8 at
targetAddress, then the 4-byte little-endian value of
replacementAddress - targetAddress - 5 taken mod 2^32, and no other byte
changes; for targetAddress 0x1000 and replacementAddress 0x2000 the
displacement equals 0x0FFB. -/
theorem installCallHook_writes_call_encoding (env : Win32Env) (t r : Nat)
    (m : MemState) (h : env.virtualProtectSucceeds = true) :
    ∃ m2, (InstallCallHook env t r m).1 = Except.ok m2 ∧
      m2.bytes t = 0xE8 ∧
      m2.bytes (t + 1) = callDisplacement t r % 256 ∧
      m2.bytes (t + 2) = callDisplacement t r / 256 % 256 ∧
      m2.bytes (t + 3) = callDisplacement t r / 65536 % 256 ∧
      m2.bytes (t + 4) = callDisplacement t r / 16777216 % 256 ∧
      (∀ x, x < t ∨ t + 4 < x → m2.bytes x = m.bytes x) ∧
      callDisplacement 0x1000 0x2000 = 0x0FFB := by
  obtain ⟨m2, hok, hbytes⟩ := installCallHook_bytes_closed_form env t r m h
  have hdisp : callDisplacement 0x1000 0x2000 = 0x0FFB := by decide
  refine ⟨m2, hok, ?_, ?_, ?_, ?_, ?_, fun x hx => ?_, hdisp⟩ <;>
    rw [hbytes] <;> split_ifs <;> first | rfl | omega

/-- Witness for C1 at target 0x1000, replacement 0x2000, zero memory. -/
theorem installCallHook_writes_call_encoding_witness :
    ∃ m2, (InstallCallHook ⟨true, 0⟩ 0x1000 0x2000 zeroMem).1
        = Except.ok m2 ∧
      m2.bytes 0x1000 = 0xE8 ∧
      m2.bytes (0x1000 + 1) = callDisplacement 0x1000 0x2000 % 256 ∧
      m2.bytes (0x1000 + 2) = callDisplacement 0x1000 0x2000 / 256 % 256 ∧
      m2.bytes (0x1000 + 3)
        = callDisplacement 0x1000 0x2000 / 65536 % 256 ∧
      m2.bytes (0x1000 + 4)
        = callDisplacement 0x1000 0x2000 / 16777216 % 256 ∧
      (∀ x, x < 0x1000 ∨ 0x1000 + 4 < x → m2.bytes x = zeroMem.bytes x) ∧
      callDisplacement 0x1000 0x2000 = 0x0FFB :=
  installCallHook_writes_call_encoding ⟨true, 0⟩ 0x1000 0x2000 zeroMem rfl

/-- C2: when the protection change fails, InstallCallHook raises the
installation error carrying the OS error, performs zero byte writes, and
the orchestrator keeps the memory unchanged, reaches Failed and logs the
error; moreover on every execution (success or failure) the trace starts
with the protection change, so it strictly precedes both byte writes. -/
theorem protect_failure_fails_cleanly (env : Win32Env)
    (gameVersion replacementAddress : Nat) (m : MemState)
    (hres : resolveHookTargetAddress gameVersion ≠ 0)
    (hfail : env.virtualProtectSucceeds = false) :
    (InstallCallHook env (resolveHookTargetAddress gameVersion)
        replacementAddress m).1 = Except.error env.lastError ∧
    (∀ e ∈ (InstallCallHook env (resolveHookTargetAddress gameVersion)
        replacementAddress m).2, e.isStore = false) ∧
    (InstallDemolitionAnimationHook env gameVersion replacementAddress
        m).state = OrchestratorState.Failed ∧
    (InstallDemolitionAnimationHook env gameVersion replacementAddress
        m).mem = m ∧
    (InstallDemolitionAnimationHook env gameVersion replacementAddress
        m).log
      = [⟨PluginLogLevel.error, failedInstallMessage env.lastError⟩] ∧
    (∀ (env2 : Win32Env) (t2 r2 : Nat) (m2 : MemState), ∃ rest,
        (InstallCallHook env2 t2 r2 m2).2
          = PatchEvent.protectCall t2 5 PAGE_EXECUTE_READWRITE :: rest ∧
        ∀ e ∈ rest, e.isStore = true) := by
  refine ⟨?_, ?_, ?_, ?_, ?_, ?_⟩
  · simp [InstallCallHook, hfail]
  · intro e he
    simp [InstallCallHook, hfail] at he
    subst he
    rfl
  · simp [InstallDemolitionAnimationHook, InstallCallHook, hres, hfail]
  · simp [InstallDemolitionAnimationHook, InstallCallHook, hres, hfail]
  · simp [InstallDemolitionAnimationHook, InstallCallHook, hres, hfail]
  · intro env2 t2 r2 m2
    by_cases h2 : env2.virtualProtectSucceeds
    · refine ⟨[PatchEvent.store t2 1 0xE8,
        PatchEvent.store (t2 + 1) 4 (callDisplacement t2 r2)],
        by simp [InstallCallHook, h2], ?_⟩
      intro e he
      simp at he
      rcases he with he | he <;> subst he <;> rfl
    · refine ⟨[], by simp [InstallCallHook, h2], ?_⟩
      intro e he
      simp at he

/-- Witness for C2 at game version 641 with a failing protection change
reporting OS error 5 (access denied). -/
theorem protect_failure_fails_cleanly_witness :
    (InstallCallHook ⟨false, 5⟩ (resolveHookTargetAddress 641) 0x400000
        zeroMem).1 = Except.error (Win32Env.mk false 5).lastError ∧
    (∀ e ∈ (InstallCallHook ⟨false, 5⟩ (resolveHookTargetAddress 641)
        0x400000 zeroMem).2, e.isStore = false) ∧
    (InstallDemolitionAnimationHook ⟨false, 5⟩ 641 0x400000 zeroMem).state
      = OrchestratorState.Failed ∧
    (InstallDemolitionAnimationHook ⟨false, 5⟩ 641 0x400000 zeroMem).mem
      = zeroMem ∧
    (InstallDemolitionAnimationHook ⟨false, 5⟩ 641 0x400000 zeroMem).log
      = [⟨PluginLogLevel.error,
          failedInstallMessage (Win32Env.mk false 5).lastError⟩] ∧
    (∀ (env2 : Win32Env) (t2 r2 : Nat) (m2 : MemState), ∃ rest,
        (InstallCallHook env2 t2 r2 m2).2
          = PatchEvent.protectCall t2 5 PAGE_EXECUTE_READWRITE :: rest ∧
        ∀ e ∈ rest, e.isStore = true) :=
  protect_failure_fails_cleanly ⟨false, 5⟩ 641 0x400000 zeroMem
    (by decide) rfl

/-- C6: for every game version absent from the table the orchestrator
reaches the terminal Unsupported state, logs the unsupported version,
performs no patch event at all (zero memory writes and no protection
change), and leaves the memory untouched; being a total Lean function it
returns normally, the graceful no-op. -/
theorem unsupported_version_graceful_noop (env : Win32Env)
    (gameVersion replacementAddress : Nat) (m : MemState)
    (h : gameVersion ≠ 641) :
    (InstallDemolitionAnimationHook env gameVersion replacementAddress
        m).state = OrchestratorState.Unsupported ∧
    (InstallDemolitionAnimationHook env gameVersion replacementAddress
        m).mem = m ∧
    (InstallDemolitionAnimationHook env gameVersion replacementAddress
        m).events = [] ∧
    (InstallDemolitionAnimationHook env gameVersion replacementAddress
        m).log
      = [⟨PluginLogLevel.error, unsupportedVersionMessage gameVersion⟩] := by
  have h0 : resolveHookTargetAddress gameVersion = 0 := by
    simp [resolveHookTargetAddress, h]
  refine ⟨?_, ?_, ?_, ?_⟩ <;> simp [InstallDemolitionAnimationHook, h0]

/-- Witness for C6 at the unsupported game version 638. -/
theorem unsupported_version_graceful_noop_witness :
    (InstallDemolitionAnimationHook ⟨true, 0⟩ 638 0x400000 zeroMem).state
      = OrchestratorState.Unsupported ∧
    (InstallDemolitionAnimationHook ⟨true, 0⟩ 638 0x400000 zeroMem).mem
      = zeroMem ∧
    (InstallDemolitionAnimationHook ⟨true, 0⟩ 638 0x400000 zeroMem).events
      = [] ∧
    (InstallDemolitionAnimationHook ⟨true, 0⟩ 638 0x400000 zeroMem).log
      = [⟨PluginLogLevel.error, unsupportedVersionMessage 638⟩] :=
  unsupported_version_graceful_noop ⟨true, 0⟩ 638 0x400000 zeroMem
    (by decide)

/-- C7: after a successful InstallCallHook the protection of the patched
range stays PAGE_EXECUTE_READWRITE whatever it was before: the prior
value is never restored on the success path, so wherever the prior
protection differed from PAGE_EXECUTE_READWRITE the final protection
differs from the prior one. -/
theorem protection_left_elevated (env : Win32Env) (t r : Nat)
    (m : MemState) (h : env.virtualProtectSucceeds = true) :
    ∃ m2, (InstallCallHook env t r m).1 = Except.ok m2 ∧
      (∀ a, t ≤ a → a < t + 5 →
        m2.prot a = PAGE_EXECUTE_READWRITE) ∧
      (∀ a, t ≤ a → a < t + 5 → m.prot a ≠ PAGE_EXECUTE_READWRITE →
        m2.prot a ≠ m.prot a) := by
  refine ⟨writeU32LE (writeByte (setProtect m t 5 PAGE_EXECUTE_READWRITE)
      t 0xE8) (t + 1) (callDisplacement t r),
    by simp [InstallCallHook, h], ?_, ?_⟩
  · intro a ha1 ha2
    simp [InstallCallHook, h, writeU32LE, writeByte, setProtect, ha1, ha2]
  · intro a ha1 ha2 hne
    simp [InstallCallHook, h, writeU32LE, writeByte, setProtect, ha1, ha2]
    exact fun heq => hne heq.symm

/-- Witness for C7: a page previously PAGE_EXECUTE_READ (0x20) is left at
PAGE_EXECUTE_READWRITE after patching address 0x1000. -/
theorem protection_left_elevated_witness :
    ∃ m2, (InstallCallHook ⟨true, 0⟩ 0x1000 0x2000
        (MemState.mk (fun _ => 0) (fun _ => 0x20))).1 = Except.ok m2 ∧
      (∀ a, 0x1000 ≤ a → a < 0x1000 + 5 →
        m2.prot a = PAGE_EXECUTE_READWRITE) ∧
      (∀ a, 0x1000 ≤ a → a < 0x1000 + 5 →
        (MemState.mk (fun _ => (0 : Nat)) (fun _ => (0x20 : Nat))).prot a
          ≠ PAGE_EXECUTE_READWRITE →
        m2.prot a
          ≠ (MemState.mk (fun _ => (0 : Nat))
              (fun _ => (0x20 : Nat))).prot a) :=
  protection_left_elevated ⟨true, 0⟩ 0x1000 0x2000
    (MemState.mk (fun _ => 0) (fun _ => 0x20)) rfl

/-- C8: InstallCallHook is idempotent in effect: running it a second time
with the same target and replacement on the memory the first run produced
succeeds and leaves exactly the same bytes (hence the identical 5-byte
encoding at the target) and the same protection map. -/
theorem installCallHook_idempotent (env : Win32Env) (t r : Nat)
    (m : MemState) (h : env.virtualProtectSucceeds = true) :
    ∃ m1 m2, (InstallCallHook env t r m).1 = Except.ok m1 ∧
      (InstallCallHook env t r m1).1 = Except.ok m2 ∧
      m2.bytes = m1.bytes ∧ m2.prot = m1.prot := by
  obtain ⟨m1, hok1, hb1⟩ := installCallHook_bytes_closed_form env t r m h
  obtain ⟨m2, hok2, hb2⟩ := installCallHook_bytes_closed_form env t r m1 h
  have hm1 : (InstallCallHook env t r m).1
      = Except.ok (writeU32LE (writeByte
          (setProtect m t 5 PAGE_EXECUTE_READWRITE) t 0xE8) (t + 1)
          (callDisplacement t r)) := by
    simp [InstallCallHook, h]
  have hm2 : (InstallCallHook env t r m1).1
      = Except.ok (writeU32LE (writeByte
          (setProtect m1 t 5 PAGE_EXECUTE_READWRITE) t 0xE8) (t + 1)
          (callDisplacement t r)) := by
    simp [InstallCallHook, h]
  refine ⟨m1, m2, hok1, hok2, ?_, ?_⟩
  · funext x
    rw [hb2 x, hb1 x]
    split_ifs <;> rfl
  · have e1 : m1 = writeU32LE (writeByte
        (setProtect m t 5 PAGE_EXECUTE_READWRITE) t 0xE8) (t + 1)
        (callDisplacement t r) := by
      have := hok1.symm.trans hm1
      exact Except.ok.inj this
    have e2 : m2 = writeU32LE (writeByte
        (setProtect m1 t 5 PAGE_EXECUTE_READWRITE) t 0xE8) (t + 1)
        (callDisplacement t r) := by
      have := hok2.symm.trans hm2
      exact Except.ok.inj this
    funext x
    rw [e2, e1]
    simp only [writeU32LE, writeByte, setProtect]
    split_ifs <;> rfl

/-- Witness for C8 at target 0x1000, replacement 0x2000, zero memory. -/
theorem installCallHook_idempotent_witness :
    ∃ m1 m2, (InstallCallHook ⟨true, 0⟩ 0x1000 0x2000 zeroMem).1
        = Except.ok m1 ∧
      (InstallCallHook ⟨true, 0⟩ 0x1000 0x2000 m1).1 = Except.ok m2 ∧
      m2.bytes = m1.bytes ∧ m2.prot = m1.prot :=
  installCallHook_idempotent ⟨true, 0⟩ 0x1000 0x2000 zeroMem rfl

end SC4DDA
